import Mathlib

/-!
Verification development for `replicon.py`, a command-line client for the
Replicon time-tracking web service.

The Python source is shallowly embedded below:
pure helper functions (`date_to_dict`, `dict_to_date`, `dict_to_seconds`,
`uri_id`) become Lean functions on explicit record types for the JSON
dictionaries; the stateful domain objects (`Timesheet`,
`TimesheetAllocation`, `Project`, `Task`, `Config`) become structures with
explicit state passing, and fallible Python code (raised exceptions,
`sys.exit`) is modelled with `Except`/outcome inductives.  JSON
dictionaries are embedded as typed records with exactly the keys the
program reads and writes; Python `dict` equality on them is field-wise
record equality.
-/

namespace Replicon

/-- Python-level exceptions and exits that the embedded code can produce. -/
inductive PyErr where
  /-- `ValueError`, e.g. from `datetime.date` on an out-of-range value. -/
  | valueError
  /-- `AttributeError`, e.g. from `None.uri`. -/
  | attributeError
  /-- `NameError`/`UnboundLocalError`: a local variable read before assignment. -/
  | nameError
  /-- `OSError`/`FileNotFoundError` from `os.chmod` on a missing path. -/
  | osError (path : String)
  /-- `IOError` raised explicitly with a message. -/
  | ioError (msg : String)
deriving DecidableEq

/-- The Replicon API date dict `{"year": Y, "month": M, "day": D}`. -/
structure DateDict where
  year : Int
  month : Int
  day : Int
deriving DecidableEq

/-- A Python `datetime.date` value: year, month, day fields.  Values built by
`datetime.date(y, m, d)` always satisfy `PyDate.validb`. -/
structure PyDate where
  year : Int
  month : Int
  day : Int
deriving DecidableEq

/-- Gregorian leap-year test, as used by `datetime.date`. -/
def isLeapYear (y : Int) : Bool :=
  y % 4 == 0 && (y % 100 != 0 || y % 400 == 0)

/-- Number of days in month `m` of year `y` (the bound `datetime.date` enforces). -/
def daysInMonth (y m : Int) : Int :=
  if m == 2 then (if isLeapYear y then 29 else 28)
  else if m == 4 || m == 6 || m == 9 || m == 11 then 30
  else 31

/-- Validity of a (year, month, day) triple for `datetime.date`:
`datetime.MINYEAR = 1 <= year <= 9999 = datetime.MAXYEAR`, `1 <= month <= 12`,
`1 <= day <= daysInMonth`. -/
def PyDate.validb (d : PyDate) : Bool :=
  decide (1 ≤ d.year) && decide (d.year ≤ 9999) &&
  decide (1 ≤ d.month) && decide (d.month ≤ 12) &&
  decide (1 ≤ d.day) && decide (d.day ≤ daysInMonth d.year d.month)

/-- `date_to_dict(datetime_date)`: convert a Python `datetime.date` object to a
Replicon API date dict. -/
def date_to_dict (datetime_date : PyDate) : DateDict :=
  { year := datetime_date.year
    month := datetime_date.month
    day := datetime_date.day }

/-- `dict_to_date(dict_date)`: convert a Replicon API date dict to a Python
`datetime.date` object.  `datetime.date` raises `ValueError` on an invalid
triple, modelled by returning `none`. -/
def dict_to_date (dict_date : DateDict) : Option PyDate :=
  let d : PyDate := { year := dict_date.year, month := dict_date.month, day := dict_date.day }
  if d.validb = true then some d else none

/-- The Replicon API duration dict `{"hours": H, "minutes": M, "seconds": S}`. -/
structure DurDict where
  hours : Int
  minutes : Int
  seconds : Int
deriving DecidableEq

/-- `dict_to_seconds(dict_duration)`: convert a Replicon API duration dict to
an integer of the total seconds (`seconds = 0; += h*60*60; += m*60; += s`). -/
def dict_to_seconds (dict_duration : DurDict) : Int :=
  0 + dict_duration.hours * 60 * 60 + dict_duration.minutes * 60 + dict_duration.seconds

/-- `uri_id(uri)`: return the end part of a uri after the last colon,
i.e. `uri.split(':')[-1]` (written on characters so it computes by `decide`). -/
def uri_id (uri : String) : String :=
  String.mk ((uri.data.reverse.takeWhile (fun c => c ≠ ':')).reverse)

/-! ### The HTTP request layer (`Replicon._getUrl`), claim C3

`_getUrl` POSTs to the API and then inspects the parsed JSON reply:
if `jsonReply.get('error')` is truthy it prints the error and calls
`sys.exit(1)`; otherwise it returns `jsonReply['d']`.  The surrounding
`try`/`except Exception` catches a missing `'d'` key (`KeyError`) and also
exits with status 1; `sys.exit` raises `SystemExit`, which does not derive
from `Exception` in Python 2, so the exits are not themselves caught.
We embed the reply-handling step as a function from the parsed JSON object
(a list of key/value fields) to an outcome. -/

/-- A parsed JSON value. -/
inductive Json where
  | null
  | bool (b : Bool)
  | num (n : Int)
  | str (s : String)
  | arr (elems : List Json)
  | obj (fields : List (String × Json))

/-- Python truthiness of a JSON-decoded value (`None`, `False`, `0`, `""`,
`[]`, `{}` are falsy). -/
def Json.truthy : Json → Bool
  | .null => false
  | .bool b => b
  | .num n => !(n == 0)
  | .str s => !s.isEmpty
  | .arr elems => !elems.isEmpty
  | .obj fields => !fields.isEmpty

/-- `dict.get(key)` on a parsed JSON object: the value at `key`, or `None`
(`none`) when absent. -/
def lookupField (fields : List (String × Json)) (key : String) : Option Json :=
  match fields with
  | [] => none
  | (k, v) :: rest => if k = key then some v else lookupField rest key

/-- Outcome of one `_getUrl` reply-handling step: either the process
terminates via `sys.exit(code)` after printing the error (so no value is ever
returned to the caller and no further API calls are made), or the call
returns the `d` field to the caller. -/
inductive GetUrlResult where
  | exits (code : Nat)
  | returns (d : Json)

/-- The reply-handling step of `Replicon._getUrl`: `if jsonReply.get('error'):
print; sys.exit(1) else: return jsonReply['d']`, with a `KeyError` on a
missing `'d'` caught by the enclosing `except` which prints and exits 1. -/
def handleReply (jsonReply : List (String × Json)) : GetUrlResult :=
  match lookupField jsonReply "error" with
  | some e =>
    if e.truthy then .exits 1
    else
      match lookupField jsonReply "d" with
      | some d => .returns d
      | none => .exits 1
  | none =>
    match lookupField jsonReply "d" with
    | some d => .returns d
    | none => .exits 1

/-! ### Session bootstrap user scan (`Replicon.__init__`), claim C4

After resolving the swimlane, `__init__` runs
```
users = self._getUrl('services/UserService1.svc/GetEnabledUsers')
for user in users:
    if user['loginName'] == self.loginName:
        loginUserURI = user['uri']
if not loginUserURI:
    print 'Error: unable to find current user URI for %s' % (self.loginName)
    sys.exit(1)
self.userURI = loginUserURI
self.uri = ':'.join(loginUserURI.split(':')[:3])
```
`loginUserURI` is a local variable assigned only inside the loop, so when no
user matches, the read in `if not loginUserURI` raises an uncaught
`UnboundLocalError` (a `NameError`); this part of `__init__` is outside any
`try` block, so the process dies with a traceback instead of reaching the
error message and `sys.exit(1)`. -/

/-- One entry of the `GetEnabledUsers` reply, with the two keys read. -/
structure UserEntry where
  loginName : String
  uri : String
deriving DecidableEq

/-- The loop over `users`: `loginUserURI` ends as the uri of the last
matching user, or unbound (`none`) when no user matches. -/
def scanLoginUserURI (users : List UserEntry) (loginName : String) : Option String :=
  users.foldl (fun acc user => if user.loginName = loginName then some user.uri else acc) none

/-- `':'.join(s.split(':')[:3])`, written on characters so it computes. -/
def splitOnColon : List Char → List (List Char)
  | [] => [[]]
  | c :: rest =>
    match splitOnColon rest with
    | [] => [[]]
    | seg :: segs => if c = ':' then [] :: seg :: segs else (c :: seg) :: segs

/-- The shared URI stem: first three colon-delimited segments of the user URI
(`self.uri = ':'.join(loginUserURI.split(':')[:3])`). -/
def uriStem (uri : String) : String :=
  String.intercalate ":" (((splitOnColon uri.data).take 3).map String.mk)

/-- Outcome of the user-scan step of `Replicon.__init__`. -/
inductive InitUserOutcome where
  /-- Construction succeeds: `self.userURI` and `self.uri` are recorded. -/
  | success (userURI : String) (uri : String)
  /-- The error message is printed and `sys.exit(1)` terminates the process. -/
  | errorExit (code : Nat)
  /-- An exception escapes `__init__` uncaught (traceback, exit status 1,
  but not via the code's own error message path). -/
  | unhandled (e : PyErr)
deriving DecidableEq

/-- The user-scan step of `Replicon.__init__` (lines 170-180): scan
`GetEnabledUsers` for the configured login name; when no user assigned
`loginUserURI`, the read `if not loginUserURI` raises `UnboundLocalError`. -/
def initUserScan (users : List UserEntry) (loginName : String) : InitUserOutcome :=
  match scanLoginUserURI users loginName with
  | none => .unhandled .nameError
  | some loginUserURI =>
    if loginUserURI.isEmpty then .errorExit 1
    else .success loginUserURI (uriStem loginUserURI)

/-! ### Config loader (`Config.__init__` / `Config._create_empty_config`), claim C5

`Config.__init__` reads `~/.repliconrc`; when absent it calls
`_create_empty_config()` and then raises
`IOError("Missing ~/.repliconrc. A default has been created for editing.")`.
`_create_empty_config` writes a template config (placeholder company,
username and password) to `~/.repliconrc` and then runs
`os.chmod(os.path.expanduser('~/.togglrc'), 0o600)` — on the *legacy*
filename, not the file just written.  When `~/.togglrc` does not exist this
`chmod` raises `FileNotFoundError`, which propagates out of `__init__`
before the `IOError` line runs.  We model the home directory as the two
relevant optional files; `chmodded600` records whether `os.chmod(..., 0o600)`
was ever applied to the file (a freshly written file keeps the process
default mode). -/

/-- A file in the model home directory. -/
structure FsFile where
  contents : String
  chmodded600 : Bool
deriving DecidableEq

/-- The model home directory: the two paths the config code touches. -/
structure HomeDir where
  repliconrc : Option FsFile
  togglrc : Option FsFile
deriving DecidableEq

/-- The template `~/.repliconrc` written by `_create_empty_config`
(ConfigParser serialization of the `auth` section with placeholder values). -/
def repliconrcTemplate : String :=
  "[auth]\ncompany = CompanyKey\nusername = user@example.com\npassword = replicon_password\n\n"

/-- `Config._create_empty_config()`: write the template to `~/.repliconrc`,
then `os.chmod('~/.togglrc', 0o600)`.  Returns the resulting home directory
and the exception raised, if any. -/
def create_empty_config (home : HomeDir) : HomeDir × Option PyErr :=
  let home1 : HomeDir := { home with repliconrc := some ⟨repliconrcTemplate, false⟩ }
  match home1.togglrc with
  | none => (home1, some (.osError "~/.togglrc"))
  | some f => ({ home1 with togglrc := some { f with chmodded600 := true } }, none)

/-- `Config.__init__()`: when `~/.repliconrc` exists, read it and continue;
when absent, run `_create_empty_config()` and raise the
"Missing ~/.repliconrc" `IOError` — unless `_create_empty_config` itself
raised, in which case that exception propagates instead. -/
def Config.init (home : HomeDir) : HomeDir × Option PyErr :=
  match home.repliconrc with
  | some _ => (home, none)
  | none =>
    match create_empty_config home with
    | (home1, some e) => (home1, some e)
    | (home1, none) =>
      (home1, some (.ioError "Missing ~/.repliconrc. A default has been created for editing."))

/-! ### Domain model: Project, Task, TimesheetAllocation, Timesheet

JSON payloads are embedded as records with exactly the keys the code reads;
Python dict equality on them is record equality. -/

/-- The `json['project']` payload of a project, with the keys
`Project.__init__` reads (the full payload is kept in `Project.json` and
echoed back in booking requests). -/
structure ProjectJson where
  uri : String
  displayText : String
  name : String
  slug : String
deriving DecidableEq

/-- The `json['task']` payload of a task, with the keys `Task.__init__` reads. -/
structure TaskJson where
  uri : String
  displayText : String
deriving DecidableEq

/-- One entry of a `customFieldValues` list: the code reads
`field['customField']['name']` and `field['text']`. -/
structure CustomFieldValue where
  customFieldName : String
  text : String
deriving DecidableEq

/-- The `Project` class.  `Project.__init__(json)` takes a dict holding the
payload under the `'project'` key and records the payload plus derived
fields; here the constructor receives the payload directly. -/
structure Project where
  json : ProjectJson
  uri : String
  id : String
  displayText : String
  name : String
  slug : String
deriving DecidableEq

/-- `Project.__init__`: `project = json['project']`, then record payload,
uri, trailing-segment id, display text, name and slug. -/
def Project.init (project : ProjectJson) : Project :=
  { json := project
    uri := project.uri
    id := uri_id project.uri
    displayText := project.displayText
    name := project.name
    slug := project.slug }

/-- The `Task` class. -/
structure Task where
  json : TaskJson
  uri : String
  id : String
  displayText : String
deriving DecidableEq

/-- `Task.__init__`: `task = json['task']`, then record payload, uri,
trailing-segment id and display text. -/
def Task.init (task : TaskJson) : Task :=
  { json := task
    uri := task.uri
    id := uri_id task.uri
    displayText := task.displayText }

/-- The allocation dict a `TimesheetAllocation` is constructed from, with the
keys `__init__` and `same_fields_as` read: `date`, `comments`, `duration`,
`project`, `task`, `customFieldValues`.  `project`/`task` are `None` or a
payload dict; `comments` is `None` or a string. -/
structure TAJson where
  date : DateDict
  comments : Option String
  duration : DurDict
  project : Option ProjectJson
  task : Option TaskJson
  customFieldValues : List CustomFieldValue
deriving DecidableEq

/-- The `TimesheetAllocation` class: the original dict plus the derived
fields `__init__` sets. -/
structure TimesheetAllocation where
  json : TAJson
  date : PyDate
  comments : Option String
  duration_seconds : Int
  project : Option Project
  task : Option Task
  ticket_num : String
  rowkey : String
deriving DecidableEq

/-- The `ticket_num` loop of `TimesheetAllocation.__init__`: the text of the
last `customFieldValues` entry named `'Ticket #'` with truthy text, else `''`. -/
def computeTicketNum (customFieldValues : List CustomFieldValue) : String :=
  customFieldValues.foldl
    (fun acc field =>
      if field.customFieldName = "Ticket #" && !field.text.isEmpty then field.text else acc)
    ""

/-- `TimesheetAllocation.__init__(json)`: converts the date (raising
`ValueError` on an invalid date dict), keeps comments, converts the duration
to seconds, wraps `project`/`task` payloads when non-null, extracts
`ticket_num`, and derives `rowkey = self.project.uri (+ self.task.uri)`.
The rowkey line dereferences `self.project` unconditionally, so a null
`project` raises `AttributeError` (`None.uri`). -/
def TimesheetAllocation.init (json : TAJson) : Except PyErr TimesheetAllocation :=
  match dict_to_date json.date with
  | none => .error .valueError
  | some date =>
    let project := json.project.map Project.init
    let task := json.task.map Task.init
    match project with
    | none => .error .attributeError
    | some p =>
      let key := p.uri ++ (match task with | some t => t.uri | none => "")
      .ok { json := json
            date := date
            comments := json.comments
            duration_seconds := dict_to_seconds json.duration
            project := some p
            task := task
            ticket_num := computeTicketNum json.customFieldValues
            rowkey := key }

/-- `TimesheetAllocation.same_fields_as(json)`: `True` iff the `date`,
`project`, `task` and `customFieldValues` entries of `json` all equal the
corresponding entries of `self.json`. -/
def TimesheetAllocation.same_fields_as (self : TimesheetAllocation) (json : TAJson) : Bool :=
  decide (self.json.date = json.date) && decide (self.json.project = json.project) &&
  decide (self.json.task = json.task) &&
  decide (self.json.customFieldValues = json.customFieldValues)

/-- The `Timesheet` class: slug, uri, date range and the mutable allocation
list (the back-reference to the session object is dropped; `put`/`clear`
below return the JSON body that would be PUT instead of posting it). -/
structure Timesheet where
  slug : String
  uri : String
  start_date : PyDate
  end_date : PyDate
  timeAllocations : List TimesheetAllocation
deriving DecidableEq

/-- One cell of a serialized timesheet row, as built in `Timesheet.put_json`:
`{'date': ..., 'duration': {'seconds': ...}, 'comments': ...,
'customFieldValues': []}`. -/
structure Cell where
  date : DateDict
  durationSeconds : Int
  comments : Option String
  customFieldValues : List CustomFieldValue
deriving DecidableEq

/-- One serialized timesheet row: the varying entries of the row dict built
in `Timesheet.put_json` (`target`, `billingRate`, `activity` and the row
`customFieldValues` are always `None`/`[]` and are omitted). -/
structure Row where
  projectUri : String
  taskUri : Option String
  cells : List Cell
deriving DecidableEq

/-- The serialized timesheet body built by `Timesheet.put_json`: the target
uri and the list of rows (the constant envelope entries are omitted). -/
structure PutJson where
  targetUri : String
  rows : List Row
deriving DecidableEq

/-- Append `cell` to the cells of the row stored under `key`
(`rows[a.rowkey]['cells'].append(cell)`). -/
def updateRow (rows : List (String × Row)) (key : String) (cell : Cell) :
    List (String × Row) :=
  match rows with
  | [] => []
  | (k, r) :: rest =>
    if k = key then (k, { r with cells := r.cells ++ [cell] }) :: rest
    else (k, r) :: updateRow rest key cell

/-- The loop body of `Timesheet.put_json` over `self.timeAllocations`,
carrying the insertion-ordered `rows` dict as an association list: each
allocation's cell is appended to the row stored under its `rowkey` when that
key is present, otherwise a fresh row is created under the key (reading
`a.project.uri`, which raises `AttributeError` when `a.project` is `None`). -/
def putRowsLoop : List TimesheetAllocation → List (String × Row) →
    Except PyErr (List (String × Row))
  | [], rows => .ok rows
  | a :: rest, rows =>
    let cell : Cell :=
      { date := date_to_dict a.date
        durationSeconds := a.duration_seconds
        comments := a.comments
        customFieldValues := [] }
    if a.rowkey ∈ rows.map Prod.fst then
      putRowsLoop rest (updateRow rows a.rowkey cell)
    else
      match a.project with
      | none => .error .attributeError
      | some p =>
        putRowsLoop rest
          (rows ++ [(a.rowkey, { projectUri := p.uri
                                 taskUri := a.task.map Task.uri
                                 cells := [cell] })])

/-- `Timesheet.put_json()`: serialize the timesheet for
`PutStandardTimesheet2`, grouping allocations into rows keyed by `rowkey`. -/
def Timesheet.put_json (self : Timesheet) : Except PyErr PutJson :=
  (putRowsLoop self.timeAllocations []).map
    (fun rows => { targetUri := self.uri, rows := rows.map Prod.snd })

/-- The allocation dict `ta` built at the top of `Timesheet.book`:
`project`/`task` objects are replaced by their stored payloads, the duration
is `{'hours': 0, 'minutes': 0, 'seconds': duration}`, and
`customFieldValues` is always `[]` (the `fieldset` argument is unused). -/
def mkBookTA (date : PyDate) (project : Option Project) (task : Option Task)
    (duration : Int) (comment : Option String) : TAJson :=
  { date := date_to_dict date
    comments := comment
    duration := { hours := 0, minutes := 0, seconds := duration }
    project := project.map Project.json
    task := task.map Task.json
    customFieldValues := [] }

/-- The merge loop of `Timesheet.book`: scan the allocations in order; the
first one whose fields compare equal to `ta` gets `duration_seconds`
incremented in place (then `break`); returns the updated list and the
`updated` flag. -/
def bookLoop (tas : List TimesheetAllocation) (ta : TAJson) (duration : Int) :
    List TimesheetAllocation × Bool :=
  match tas with
  | [] => ([], false)
  | tb :: rest =>
    if tb.same_fields_as ta then
      ({ tb with duration_seconds := tb.duration_seconds + duration } :: rest, true)
    else
      let r := bookLoop rest ta duration
      (tb :: r.1, r.2)

/-- `Timesheet.book(date, project, task, duration, comment, fieldset)`:
build the allocation dict; merge its duration into the first allocation with
the same fields, else append `TimesheetAllocation(ta)` (whose construction
can raise, e.g. `AttributeError` on a `None` project).  The `fieldset`
argument of the Python method is never read by its body (the dict's
`customFieldValues` is always `[]`), so it is omitted here. -/
def Timesheet.book (self : Timesheet) (date : PyDate) (project : Option Project)
    (task : Option Task) (duration : Int) (comment : Option String) :
    Except PyErr Timesheet :=
  let ta := mkBookTA date project task duration comment
  let r := bookLoop self.timeAllocations ta duration
  if r.2 then .ok { self with timeAllocations := r.1 }
  else
    match TimesheetAllocation.init ta with
    | .error e => .error e
    | .ok newTA => .ok { self with timeAllocations := self.timeAllocations ++ [newTA] }

/-- `Timesheet.clear()`: empty the allocations, then PUT the serialized
now-empty timesheet; returns the new local state and the PUT body. -/
def Timesheet.clear (self : Timesheet) : Except PyErr (Timesheet × PutJson) :=
  let cleared : Timesheet := { self with timeAllocations := [] }
  (cleared.put_json).map (fun body => (cleared, body))

/-! ### Counting helpers for reasoning about `put_json` row grouping -/

/-- Total number of cells across the rows of the association list. -/
def cellCount : List (String × Row) → Nat
  | [] => 0
  | r :: rest => r.2.cells.length + cellCount rest

/-- The keys of the rows dict after inserting each key of the second list in
order, skipping keys already present (dict insertion order). -/
def insertKeys : List String → List String → List String
  | ks, [] => ks
  | ks, k :: rest => insertKeys (if k ∈ ks then ks else ks ++ [k]) rest

/-! ### Concrete example values used by counterexamples and witnesses -/

/-- A sample project payload. -/
def exProjJson : ProjectJson :=
  { uri := "urn:replicon-tenant:test:project:1"
    displayText := "1. Project One"
    name := "Project One"
    slug := "project-one" }

/-- The sample `Project` object. -/
def exProject : Project := Project.init exProjJson

/-- Sample date 2024-01-02. -/
def exDate1 : PyDate := ⟨2024, 1, 2⟩

/-- Sample date 2024-01-03. -/
def exDate2 : PyDate := ⟨2024, 1, 3⟩

/-- An allocation dict whose `project` entry is null. -/
def exJsonNoProject : TAJson :=
  { date := date_to_dict exDate1
    comments := none
    duration := ⟨0, 0, 3600⟩
    project := none
    task := none
    customFieldValues := [] }

/-- An allocation dict for one hour on 2024-01-02 against the sample project. -/
def exJson1 : TAJson :=
  { date := date_to_dict exDate1
    comments := some "work"
    duration := ⟨0, 0, 3600⟩
    project := some exProjJson
    task := none
    customFieldValues := [] }

/-- An allocation dict for half an hour on 2024-01-03 against the same project. -/
def exJson2 : TAJson :=
  { date := date_to_dict exDate2
    comments := some "more work"
    duration := ⟨0, 0, 1800⟩
    project := some exProjJson
    task := none
    customFieldValues := [] }

/-- The allocation `TimesheetAllocation.init` builds from `exJson1`. -/
def exAlloc1 : TimesheetAllocation :=
  { json := exJson1
    date := exDate1
    comments := some "work"
    duration_seconds := 3600
    project := some exProject
    task := none
    ticket_num := ""
    rowkey := "urn:replicon-tenant:test:project:1" }

/-- The allocation `TimesheetAllocation.init` builds from `exJson2`. -/
def exAlloc2 : TimesheetAllocation :=
  { json := exJson2
    date := exDate2
    comments := some "more work"
    duration_seconds := 1800
    project := some exProject
    task := none
    ticket_num := ""
    rowkey := "urn:replicon-tenant:test:project:1" }

/-- A sample timesheet with no allocations. -/
def exEmptyTimesheet : Timesheet :=
  { slug := "sheet-slug"
    uri := "urn:replicon-tenant:test:timesheet:9"
    start_date := exDate1
    end_date := exDate2
    timeAllocations := [] }

/-- A sample timesheet holding two allocations that share a rowkey (same
project, no task) but differ in date. -/
def exT2 : Timesheet :=
  { exEmptyTimesheet with timeAllocations := [exAlloc1, exAlloc2] }

/-- The allocation appended by booking 3600 seconds on `exDate1` against
`exProject` with comment "first" into a timesheet with no matching row. -/
def exAllocBooked : TimesheetAllocation :=
  { json := mkBookTA exDate1 (some exProject) none 3600 (some "first")
    date := exDate1
    comments := some "first"
    duration_seconds := 3600
    project := some exProject
    task := none
    ticket_num := ""
    rowkey := "urn:replicon-tenant:test:project:1" }

/-- C7: for every calendar date `D` (every valid `datetime.date` value),
`dict_to_date(date_to_dict(D)) == D`. -/
theorem dict_to_date_date_to_dict (d : PyDate) (h : d.validb = true) :
    dict_to_date (date_to_dict d) = some d := by
  simp [dict_to_date, date_to_dict, h]

/-- Witness for C7 at the concrete leap-day date 2024-02-29. -/
theorem dict_to_date_date_to_dict_witness :
    PyDate.validb ⟨2024, 2, 29⟩ = true ∧
      dict_to_date (date_to_dict ⟨2024, 2, 29⟩) = some ⟨2024, 2, 29⟩ :=
  ⟨by decide, dict_to_date_date_to_dict ⟨2024, 2, 29⟩ (by decide)⟩

/-- C8: for all non-negative integers `h`, `m`, `s`,
`dict_to_seconds {hours h, minutes m, seconds s} = h*3600 + m*60 + s`. -/
theorem dict_to_seconds_eq (h m s : Int) (hh : 0 ≤ h) (hm : 0 ≤ m) (hs : 0 ≤ s) :
    dict_to_seconds ⟨h, m, s⟩ = h * 3600 + m * 60 + s := by
  simp only [dict_to_seconds]
  ring

/-- Witness for C8 at (h, m, s) = (1, 2, 3). -/
theorem dict_to_seconds_eq_witness :
    0 ≤ (1 : Int) ∧ 0 ≤ (2 : Int) ∧ 0 ≤ (3 : Int) ∧
      dict_to_seconds ⟨1, 2, 3⟩ = 1 * 3600 + 2 * 60 + 3 :=
  ⟨by decide, by decide, by decide,
    dict_to_seconds_eq 1 2 3 (by decide) (by decide) (by decide)⟩

/-- C3: for every API reply handled by the request layer, a truthy `error`
field makes the call print the error and terminate the process with exit
code 1 (so no value is returned to the caller and no further API calls are
made); otherwise the call returns the reply's `d` field to the caller
(third conjunct: whenever the reply carries a `d` field and no truthy
`error` field, the handler returns that `d`); and any outcome that does
return a value returns the reply's `d` field, and only when the reply has
no truthy `error` field — an API-reported error is never propagated to a
caller as a returned value or exception. -/
theorem getUrl_fail_fast (jsonReply : List (String × Json)) :
    (∀ e, lookupField jsonReply "error" = some e → e.truthy = true →
      handleReply jsonReply = .exits 1) ∧
    (∀ d, handleReply jsonReply = .returns d →
      lookupField jsonReply "d" = some d ∧
        ∀ e, lookupField jsonReply "error" = some e → e.truthy = false) ∧
    (∀ d, lookupField jsonReply "d" = some d →
      (∀ e, lookupField jsonReply "error" = some e → e.truthy = false) →
      handleReply jsonReply = .returns d) := by
  refine ⟨?_, ?_, ?_⟩
  · intro e he ht
    simp [handleReply, he, ht]
  · intro d hd
    unfold handleReply at hd
    split at hd
    · rename_i e heq
      by_cases htr : e.truthy = true
      · rw [if_pos htr] at hd
        cases hd
      · rw [if_neg htr] at hd
        split at hd
        · rename_i v hdd
          cases hd
          exact ⟨hdd, fun e2 he2 => by rw [heq] at he2; cases he2; simpa using htr⟩
        · cases hd
    · rename_i heq
      split at hd
      · rename_i v hdd
        cases hd
        exact ⟨hdd, fun e2 he2 => by rw [heq] at he2; cases he2⟩
      · cases hd
  · intro d hd herr
    unfold handleReply
    rcases hc : lookupField jsonReply "error" with _ | e
    · simp [hc, hd]
    · simp [hc, hd, herr e hc]

/-- Witness for C3: the reply `{"error": "invalid session"}` terminates the
process with exit code 1, and the error-free reply `{"d": []}` returns its
`d` field to the caller. -/
theorem getUrl_fail_fast_witness :
    handleReply [("error", Json.str "invalid session")] = .exits 1 ∧
    handleReply [("d", Json.arr [])] = .returns (Json.arr []) :=
  ⟨(getUrl_fail_fast [("error", Json.str "invalid session")]).1
      (Json.str "invalid session") rfl rfl,
    (getUrl_fail_fast [("d", Json.arr [])]).2.2 (Json.arr []) rfl
      (fun e he => by simp [lookupField] at he)⟩

/-- C4 (code_bug evidence): the user scan of `Replicon.__init__`.  When
`GetEnabledUsers` returns a user whose login name matches the configured
username, construction succeeds and records that user's URI (and the derived
three-segment stem).  But when *no* entry matches, the code raises an
uncaught `UnboundLocalError` reading the never-assigned `loginUserURI`, so
the intended error message and `sys.exit(1)` on lines 175-176 are never
reached. -/
theorem initUserScan_unbound_local_on_no_match :
    initUserScan [⟨"user@example.com", "urn:replicon-tenant:abc:user:42"⟩]
        "user@example.com" =
      .success "urn:replicon-tenant:abc:user:42" "urn:replicon-tenant:abc" ∧
    initUserScan [] "user@example.com" = .unhandled .nameError ∧
    initUserScan [⟨"other@example.com", "urn:replicon-tenant:abc:user:7"⟩]
        "user@example.com" = .unhandled .nameError := by
  refine ⟨?_, rfl, rfl⟩
  decide

/-- C5 (code_bug evidence): with neither `~/.repliconrc` nor the legacy
`~/.togglrc` present, `Config()` writes the placeholder template to
`~/.repliconrc` but then crashes with `FileNotFoundError` from
`os.chmod('~/.togglrc', 0o600)`: the created file never gets the restrictive
permissions and the "Missing ~/.repliconrc" `IOError` is never raised.  Even
when `~/.togglrc` does exist, the `chmod` tightens that legacy file, not the
file just created. -/
theorem config_init_chmods_wrong_file :
    (Config.init ⟨none, none⟩ =
      (⟨some ⟨repliconrcTemplate, false⟩, none⟩, some (.osError "~/.togglrc"))) ∧
    (Config.init ⟨none, some ⟨"old", false⟩⟩ =
      (⟨some ⟨repliconrcTemplate, false⟩, some ⟨"old", true⟩⟩,
        some (.ioError "Missing ~/.repliconrc. A default has been created for editing."))) := by
  constructor <;> rfl

/-- C6: clearing any timesheet leaves zero allocations and PUTs the
serialization of the empty timesheet, and clear is idempotent: a second
clear leaves the same empty state and PUTs the identical already-empty body. -/
theorem clear_empties_and_is_idempotent (t : Timesheet) :
    t.clear = .ok ({ t with timeAllocations := [] }, { targetUri := t.uri, rows := [] }) ∧
    Timesheet.clear { t with timeAllocations := [] } =
      .ok ({ t with timeAllocations := [] }, { targetUri := t.uri, rows := [] }) := by
  constructor <;> rfl

/-- C9 counterexample: constructing a `TimesheetAllocation` from API JSON
whose `project` field is null *does* fail — the rowkey computation
dereferences `self.project.uri` unconditionally, raising `AttributeError` —
refuting the claim that construction does not fail. -/
theorem allocation_null_project_fails :
    TimesheetAllocation.init exJsonNoProject = .error .attributeError := by
  rfl

/-- C9 amended: a `TimesheetAllocation` requires a non-null project: on a
null `project` field construction raises `AttributeError` (from the rowkey
computation `self.project.uri`); with a project present (and a convertible
date) construction succeeds and the rowkey is the project URI concatenated
with the task URI when a task is present, and the project URI alone when no
task is present. -/
theorem allocation_rowkey_requires_project (j : TAJson) (d : PyDate)
    (hd : dict_to_date j.date = some d) :
    (j.project = none → TimesheetAllocation.init j = .error .attributeError) ∧
    (∀ pj, j.project = some pj →
      ∃ ta, TimesheetAllocation.init j = .ok ta ∧
        ta.project = some (Project.init pj) ∧
        ta.rowkey = pj.uri ++ (match j.task with
          | some tj => tj.uri
          | none => "")) := by
  constructor
  · intro hp
    unfold TimesheetAllocation.init
    rw [hd, hp]
    rfl
  · intro pj hp
    unfold TimesheetAllocation.init
    rw [hd, hp]
    refine ⟨_, rfl, rfl, ?_⟩
    cases j.task <;> rfl

/-- Witness for the amended C9 at a concrete allocation dict with a project
and no task. -/
theorem allocation_rowkey_requires_project_witness :
    ∃ ta, TimesheetAllocation.init exJson1 = .ok ta ∧
      ta.project = some (Project.init exProjJson) ∧
      ta.rowkey = exProjJson.uri ++ "" :=
  (allocation_rowkey_requires_project exJson1 exDate1 (by decide)).2 exProjJson rfl

/-- The merge loop of `book` leaves the list unchanged and reports no update
when no allocation has the same fields as the booked dict. -/
theorem bookLoop_no_match (tas : List TimesheetAllocation) (ta : TAJson) (dur : Int)
    (h : ∀ tb ∈ tas, tb.same_fields_as ta = false) :
    bookLoop tas ta dur = (tas, false) := by
  induction tas with
  | nil => rfl
  | cons tb rest ih =>
    have htb := h tb (List.mem_cons_self tb rest)
    simp [bookLoop, htb, ih (fun x hx => h x (List.mem_cons_of_mem _ hx))]

/-- The merge loop of `book` updates exactly the first allocation with the
same fields as the booked dict, incrementing its duration in place. -/
theorem bookLoop_first_match (l1 : List TimesheetAllocation) (tb : TimesheetAllocation)
    (l2 : List TimesheetAllocation) (ta : TAJson) (dur : Int)
    (h1 : ∀ x ∈ l1, x.same_fields_as ta = false)
    (htb : tb.same_fields_as ta = true) :
    bookLoop (l1 ++ tb :: l2) ta dur =
      (l1 ++ { tb with duration_seconds := tb.duration_seconds + dur } :: l2, true) := by
  induction l1 with
  | nil => simp [bookLoop, htb]
  | cons x rest ih =>
    have hx := h1 x (List.mem_cons_self x rest)
    simp [bookLoop, hx, ih (fun y hy => h1 y (List.mem_cons_of_mem _ hy))]

/-- Constructing a `TimesheetAllocation` from the dict `book` builds always
succeeds when the project is present and the date is a real calendar date. -/
theorem init_mkBookTA (date : PyDate) (p : Project) (task : Option Task)
    (duration : Int) (comment : Option String) (hdate : date.validb = true) :
    TimesheetAllocation.init (mkBookTA date (some p) task duration comment) =
      .ok { json := mkBookTA date (some p) task duration comment
            date := date
            comments := comment
            duration_seconds := dict_to_seconds ⟨0, 0, duration⟩
            project := some (Project.init p.json)
            task := (task.map Task.json).map Task.init
            ticket_num := ""
            rowkey := (Project.init p.json).uri ++
              (match (task.map Task.json).map Task.init with
                | some t => t.uri
                | none => "") } := by
  have hdd : dict_to_date (date_to_dict date) = some date :=
    dict_to_date_date_to_dict date hdate
  unfold TimesheetAllocation.init mkBookTA
  simp [hdd, computeTicketNum]

/-- C1 counterexample: a booking request whose project is null, against a
timesheet with no allocation of identical fields, does not append exactly
one new allocation — `TimesheetAllocation(ta)` raises `AttributeError`
computing the rowkey from the null project, so `book` neither merges nor
appends (refuting the claim's universal quantification over every booking
request). -/
theorem book_null_project_raises :
    exEmptyTimesheet.book exDate1 none none 3600 none = .error .attributeError := by
  rfl

/-- C1 amended: for every timesheet and every booking request carrying a
project (and a real calendar date), `Timesheet.book` merges into an
existing allocation — incrementing that allocation's duration in place and
creating no new row — if and only if the existing allocation has identical
date, project, task and custom-field values (part (i) characterizes the
merge test as exactly that field equality; part (ii) is the in-place merge
of the first such allocation; part (iii) shows that otherwise exactly one
new allocation is appended).  A null-project booking request with no
matching allocation instead raises `AttributeError`, as the counterexample
above shows. -/
theorem book_merges_iff_same_fields (t : Timesheet) (date : PyDate) (p : Project)
    (task : Option Task) (duration : Int) (comment : Option String)
    (hdate : date.validb = true) :
    (∀ tb : TimesheetAllocation,
      tb.same_fields_as (mkBookTA date (some p) task duration comment) = true ↔
        (tb.json.date = date_to_dict date ∧ tb.json.project = some p.json ∧
          tb.json.task = task.map Task.json ∧ tb.json.customFieldValues = [])) ∧
    (∀ l1 tb l2, t.timeAllocations = l1 ++ tb :: l2 →
      (∀ x ∈ l1, x.same_fields_as (mkBookTA date (some p) task duration comment) = false) →
      tb.same_fields_as (mkBookTA date (some p) task duration comment) = true →
      t.book date (some p) task duration comment =
        .ok { t with timeAllocations :=
          l1 ++ { tb with duration_seconds := tb.duration_seconds + duration } :: l2 }) ∧
    ((∀ x ∈ t.timeAllocations,
        x.same_fields_as (mkBookTA date (some p) task duration comment) = false) →
      ∃ newTA,
        TimesheetAllocation.init (mkBookTA date (some p) task duration comment) = .ok newTA ∧
        t.book date (some p) task duration comment =
          .ok { t with timeAllocations := t.timeAllocations ++ [newTA] }) := by
  refine ⟨?_, ?_, ?_⟩
  · intro tb
    simp [TimesheetAllocation.same_fields_as, mkBookTA, and_assoc]
  · intro l1 tb l2 hsplit h1 htb
    unfold Timesheet.book
    rw [hsplit]
    simp [bookLoop_first_match l1 tb l2 _ duration h1 htb]
  · intro hall
    have hloop := bookLoop_no_match t.timeAllocations _ duration hall
    have hinit := init_mkBookTA date p task duration comment hdate
    refine ⟨_, hinit, ?_⟩
    unfold Timesheet.book
    simp [hloop, hinit]

/-- Witness for C1: booking 3600 seconds to a date/project with no matching
allocation appends one allocation, and booking 1800 more seconds to the same
date/project/task merges into it, leaving exactly one allocation of 5400
seconds. -/
theorem book_merges_iff_same_fields_witness :
    exEmptyTimesheet.book exDate1 (some exProject) none 3600 (some "first") =
      .ok { exEmptyTimesheet with timeAllocations := [exAllocBooked] } ∧
    Timesheet.book { exEmptyTimesheet with timeAllocations := [exAllocBooked] }
        exDate1 (some exProject) none 1800 (some "second") =
      .ok { exEmptyTimesheet with
            timeAllocations := [{ exAllocBooked with duration_seconds := 5400 }] } := by
  constructor
  · rfl
  · have h := (book_merges_iff_same_fields
        { exEmptyTimesheet with timeAllocations := [exAllocBooked] }
        exDate1 exProject none 1800 (some "second") (by decide)).2.1
      [] exAllocBooked [] rfl (by simp) (by decide)
    exact h

/-- C10: frame conditions of `Timesheet.book`.  In the merge case, the only
field of the matched allocation that changes is `duration_seconds` (its
date, comments, project, task, ticket number, rowkey and stored JSON
comparison fields are unchanged, so the newly booked comment is discarded),
every other allocation is unchanged, and the timesheet's slug, uri,
start and end dates are unchanged; in the append case the original
allocations and the timesheet metadata are likewise unchanged. -/
theorem book_frame_conditions (t : Timesheet) (date : PyDate) (p : Project)
    (task : Option Task) (duration : Int) (comment : Option String)
    (hdate : date.validb = true) :
    (∀ l1 tb l2, t.timeAllocations = l1 ++ tb :: l2 →
      (∀ x ∈ l1, x.same_fields_as (mkBookTA date (some p) task duration comment) = false) →
      tb.same_fields_as (mkBookTA date (some p) task duration comment) = true →
      ∃ t2 tb2, t.book date (some p) task duration comment = .ok t2 ∧
        t2.slug = t.slug ∧ t2.uri = t.uri ∧ t2.start_date = t.start_date ∧
        t2.end_date = t.end_date ∧
        t2.timeAllocations = l1 ++ tb2 :: l2 ∧
        tb2.duration_seconds = tb.duration_seconds + duration ∧
        tb2.json = tb.json ∧ tb2.date = tb.date ∧ tb2.comments = tb.comments ∧
        tb2.project = tb.project ∧ tb2.task = tb.task ∧
        tb2.ticket_num = tb.ticket_num ∧ tb2.rowkey = tb.rowkey) ∧
    ((∀ x ∈ t.timeAllocations,
        x.same_fields_as (mkBookTA date (some p) task duration comment) = false) →
      ∃ t2 newTA, t.book date (some p) task duration comment = .ok t2 ∧
        t2.slug = t.slug ∧ t2.uri = t.uri ∧ t2.start_date = t.start_date ∧
        t2.end_date = t.end_date ∧
        t2.timeAllocations = t.timeAllocations ++ [newTA]) := by
  constructor
  · intro l1 tb l2 hsplit h1 htb
    refine ⟨{ t with timeAllocations :=
        l1 ++ { tb with duration_seconds := tb.duration_seconds + duration } :: l2 },
      { tb with duration_seconds := tb.duration_seconds + duration },
      ?_, rfl, rfl, rfl, rfl, rfl, rfl, rfl, rfl, rfl, rfl, rfl, rfl, rfl⟩
    unfold Timesheet.book
    rw [hsplit]
    simp [bookLoop_first_match l1 tb l2 _ duration h1 htb]
  · intro hall
    have hloop := bookLoop_no_match t.timeAllocations _ duration hall
    have hinit := init_mkBookTA date p task duration comment hdate
    have hbook : t.book date (some p) task duration comment =
        .ok { t with timeAllocations := t.timeAllocations ++
          [{ json := mkBookTA date (some p) task duration comment
             date := date
             comments := comment
             duration_seconds := dict_to_seconds ⟨0, 0, duration⟩
             project := some (Project.init p.json)
             task := (task.map Task.json).map Task.init
             ticket_num := ""
             rowkey := (Project.init p.json).uri ++
               (match (task.map Task.json).map Task.init with
                 | some tk => tk.uri
                 | none => "") }] } := by
      unfold Timesheet.book
      simp [hloop, hinit]
    exact ⟨_, _, hbook, rfl, rfl, rfl, rfl, rfl⟩

/-- Witness for C10 at the concrete merge of 1800 seconds into a
one-allocation timesheet. -/
theorem book_frame_conditions_witness :
    ∃ t2 tb2,
      Timesheet.book { exEmptyTimesheet with timeAllocations := [exAllocBooked] }
          exDate1 (some exProject) none 1800 (some "second") = .ok t2 ∧
      t2.slug = exEmptyTimesheet.slug ∧ t2.uri = exEmptyTimesheet.uri ∧
      t2.start_date = exEmptyTimesheet.start_date ∧
      t2.end_date = exEmptyTimesheet.end_date ∧
      t2.timeAllocations = [] ++ tb2 :: [] ∧
      tb2.duration_seconds = exAllocBooked.duration_seconds + 1800 ∧
      tb2.json = exAllocBooked.json ∧ tb2.date = exAllocBooked.date ∧
      tb2.comments = exAllocBooked.comments ∧ tb2.project = exAllocBooked.project ∧
      tb2.task = exAllocBooked.task ∧ tb2.ticket_num = exAllocBooked.ticket_num ∧
      tb2.rowkey = exAllocBooked.rowkey :=
  (book_frame_conditions { exEmptyTimesheet with timeAllocations := [exAllocBooked] }
      exDate1 exProject none 1800 (some "second") (by decide)).1
    [] exAllocBooked [] rfl (by simp) (by decide)

/-- C2 counterexample: two allocations sharing a rowkey (same project and
task, different dates) are serialized by `put_json` into a single row with
two cells, not one row per allocation: the timesheet has 2 allocations but
the body has 1 row, whose cell list has length 2. -/
theorem put_json_merges_rows_sharing_rowkey :
    TimesheetAllocation.init exJson1 = .ok exAlloc1 ∧
    TimesheetAllocation.init exJson2 = .ok exAlloc2 ∧
    exT2.timeAllocations.length = 2 ∧
    exT2.put_json.map (fun pj => (pj.rows.length, pj.rows.map fun r => r.cells.length)) =
      .ok (1, [2]) := by
  refine ⟨rfl, rfl, rfl, rfl⟩

/-- Appending a cell to an existing key leaves the key sequence unchanged. -/
theorem updateRow_map_fst (rows : List (String × Row)) (key : String) (cell : Cell) :
    (updateRow rows key cell).map Prod.fst = rows.map Prod.fst := by
  induction rows with
  | nil => rfl
  | cons r rest ih =>
    rcases r with ⟨k, row⟩
    by_cases hk : k = key <;> simp [updateRow, hk, ih]

/-- Appending a cell to a present key adds exactly one cell overall. -/
theorem cellCount_updateRow (rows : List (String × Row)) (key : String) (cell : Cell)
    (h : key ∈ rows.map Prod.fst) :
    cellCount (updateRow rows key cell) = cellCount rows + 1 := by
  induction rows with
  | nil => simp at h
  | cons r rest ih =>
    rcases r with ⟨k, row⟩
    by_cases hk : k = key
    · simp [updateRow, hk, cellCount]
      omega
    · have hmem : key ∈ rest.map Prod.fst := by
        simp only [List.map_cons, List.mem_cons] at h
        rcases h with h1 | h1
        · exact absurd h1.symm hk
        · exact h1
      simp [updateRow, hk, cellCount, ih hmem]
      omega

/-- `cellCount` distributes over append. -/
theorem cellCount_append (r1 r2 : List (String × Row)) :
    cellCount (r1 ++ r2) = cellCount r1 + cellCount r2 := by
  induction r1 with
  | nil => simp [cellCount]
  | cons r rest ih => simp [cellCount, ih]; omega

/-- Unfolding equation of `insertKeys` on a cons. -/
theorem insertKeys_cons (ks : List String) (k : String) (l : List String) :
    insertKeys ks (k :: l) = insertKeys (if k ∈ ks then ks else ks ++ [k]) l := rfl

/-- Membership in `insertKeys`. -/
theorem mem_insertKeys (l : List String) :
    ∀ ks x, x ∈ insertKeys ks l ↔ x ∈ ks ∨ x ∈ l := by
  induction l with
  | nil => intro ks x; simp [insertKeys]
  | cons k rest ih =>
    intro ks x
    by_cases hk : k ∈ ks
    · rw [insertKeys, if_pos hk, ih]
      constructor
      · rintro (h | h)
        · exact Or.inl h
        · exact Or.inr (List.mem_cons_of_mem _ h)
      · rintro (h | h)
        · exact Or.inl h
        · rcases List.mem_cons.mp h with h | h
          · exact Or.inl (h ▸ hk)
          · exact Or.inr h
    · rw [insertKeys, if_neg hk, ih]
      simp [List.mem_append, or_assoc, List.mem_cons]

/-- `insertKeys` preserves distinctness of the keys. -/
theorem insertKeys_nodup (l : List String) :
    ∀ ks : List String, ks.Nodup → (insertKeys ks l).Nodup := by
  induction l with
  | nil => intro ks h; exact h
  | cons k rest ih =>
    intro ks h
    by_cases hk : k ∈ ks
    · rw [insertKeys, if_pos hk]
      exact ih ks h
    · rw [insertKeys, if_neg hk]
      refine ih _ ?_
      simp [List.nodup_append, h, hk]

/-- The row-building loop of `put_json` succeeds when every allocation has a
project, produces the rows dict whose ordered key sequence extends the
initial keys by the first occurrence of each new rowkey, and adds exactly
one cell per allocation. -/
theorem putRowsLoop_spec (l : List TimesheetAllocation) :
    ∀ rows : List (String × Row), (∀ a ∈ l, a.project.isSome = true) →
      ∃ rows2, putRowsLoop l rows = .ok rows2 ∧
        rows2.map Prod.fst =
          insertKeys (rows.map Prod.fst) (l.map TimesheetAllocation.rowkey) ∧
        cellCount rows2 = cellCount rows + l.length := by
  induction l with
  | nil =>
    intro rows _
    exact ⟨rows, rfl, rfl, rfl⟩
  | cons a rest ih =>
    intro rows hp
    have ha := hp a (List.mem_cons_self a rest)
    have hrest : ∀ x ∈ rest, x.project.isSome = true :=
      fun x hx => hp x (List.mem_cons_of_mem _ hx)
    by_cases hmem : a.rowkey ∈ rows.map Prod.fst
    · obtain ⟨rows2, hre, hkeys, hcells⟩ := ih (updateRow rows a.rowkey
        { date := date_to_dict a.date, durationSeconds := a.duration_seconds,
          comments := a.comments, customFieldValues := [] }) hrest
      refine ⟨rows2, ?_, ?_, ?_⟩
      · simp only [putRowsLoop]
        rw [if_pos hmem]
        exact hre
      · rw [List.map_cons, insertKeys_cons, if_pos hmem, hkeys, updateRow_map_fst]
      · rw [hcells, cellCount_updateRow rows a.rowkey
          { date := date_to_dict a.date, durationSeconds := a.duration_seconds,
            comments := a.comments, customFieldValues := [] } hmem, List.length_cons]
        omega
    · rcases hproj : a.project with _ | p
      · rw [hproj] at ha; cases ha
      · obtain ⟨rows2, hre, hkeys, hcells⟩ :=
          ih (rows ++ [(a.rowkey,
            { projectUri := p.uri, taskUri := a.task.map Task.uri,
              cells := [{ date := date_to_dict a.date, durationSeconds := a.duration_seconds,
                          comments := a.comments, customFieldValues := [] }] })]) hrest
        refine ⟨rows2, ?_, ?_, ?_⟩
        · simp only [putRowsLoop]
          rw [if_neg hmem, hproj]
          exact hre
        · rw [List.map_cons, insertKeys_cons, if_neg hmem, hkeys, List.map_append]
          rfl
        · rw [hcells, cellCount_append, List.length_cons]
          simp [cellCount]
          omega

/-- C2 amended: `put_json` does combine allocations sharing a row key: it
emits one cell per allocation and one row per *distinct* rowkey among the
timesheet's allocations (cells of allocations sharing a rowkey are appended
to that rowkey's single row). -/
theorem put_json_groups_by_rowkey (t : Timesheet)
    (hp : ∀ a ∈ t.timeAllocations, a.project.isSome = true) :
    ∃ pj, t.put_json = .ok pj ∧ pj.targetUri = t.uri ∧
      pj.rows.length = (t.timeAllocations.map TimesheetAllocation.rowkey).toFinset.card ∧
      (pj.rows.map (fun r => r.cells.length)).sum = t.timeAllocations.length := by
  obtain ⟨rows2, hre, hkeys, hcells⟩ := putRowsLoop_spec t.timeAllocations [] hp
  refine ⟨{ targetUri := t.uri, rows := rows2.map Prod.snd }, ?_, rfl, ?_, ?_⟩
  · unfold Timesheet.put_json
    rw [hre]
    rfl
  · have hnodup : (insertKeys [] (t.timeAllocations.map TimesheetAllocation.rowkey)).Nodup :=
      insertKeys_nodup _ [] List.nodup_nil
    have hsetEq :
        (insertKeys [] (t.timeAllocations.map TimesheetAllocation.rowkey)).toFinset =
          (t.timeAllocations.map TimesheetAllocation.rowkey).toFinset := by
      ext x
      simp [List.mem_toFinset, mem_insertKeys]
    calc (rows2.map Prod.snd).length
        = (rows2.map Prod.fst).length := by simp
      _ = (insertKeys [] (t.timeAllocations.map TimesheetAllocation.rowkey)).length := by
          rw [hkeys]; rfl
      _ = (insertKeys [] (t.timeAllocations.map TimesheetAllocation.rowkey)).toFinset.card :=
          (List.toFinset_card_of_nodup hnodup).symm
      _ = (t.timeAllocations.map TimesheetAllocation.rowkey).toFinset.card := by
          rw [hsetEq]
  · have hsum : ∀ rows : List (String × Row),
        ((rows.map Prod.snd).map (fun r => r.cells.length)).sum = cellCount rows := by
      intro rows
      induction rows with
      | nil => rfl
      | cons r rest ih => simp only [List.map_cons, List.sum_cons, cellCount, ih]
    rw [hsum, hcells]
    simp [cellCount]

/-- Witness for the amended C2 at the concrete two-allocation timesheet
`exT2` (two allocations, one shared rowkey). -/
theorem put_json_groups_by_rowkey_witness :
    ∃ pj, exT2.put_json = .ok pj ∧ pj.targetUri = exT2.uri ∧
      pj.rows.length = (exT2.timeAllocations.map TimesheetAllocation.rowkey).toFinset.card ∧
      (pj.rows.map (fun r => r.cells.length)).sum = exT2.timeAllocations.length :=
  put_json_groups_by_rowkey exT2 (by decide)

end Replicon
